import Mathlib

/-!
Verification of the state-aggregation layer of a Proxmox dashboard backend
(`src/src-tauri/src/main.rs`).

The Rust source is shallowly embedded: strings are Lean `String`s (with the
character list `String.data` used where Rust iterates over a `&str`), machine
integers are `Nat`/`Int` with explicit range checks where the Rust `parse`
calls enforce them, timestamps are `Int` seconds, `Result` is `Except`, and
every external effect (running `ssh`, reading the clock, formatting a date)
is an explicit function parameter.  The `f64` fields of the Rust records that
are merely carried through unchanged are represented by `Rat` placeholders;
no claim in this file computes with them.
-/

namespace ProxmoxAdmin

/-! ## String primitives mirroring the Rust standard library -/

/-- Boolean test that `p` is a prefix of `l`, mirroring `str::starts_with`
on character lists. -/
def isPrefixList : List Char → List Char → Bool
  | [], _ => true
  | _ :: _, [] => false
  | a :: as, b :: bs => a == b && isPrefixList as bs

/-- Boolean substring containment, mirroring Rust `str::contains` (exact,
case-sensitive substring search). -/
def containsSub (needle : List Char) : List Char → Bool
  | [] => needle.isEmpty
  | c :: rest => isPrefixList needle (c :: rest) || containsSub needle rest

/-- Split a character list at every character satisfying `p`; the separators
are consumed.  `splitOnP p []` is `[[]]`, matching `str::split`. -/
def splitOnP (p : Char → Bool) : List Char → List (List Char)
  | [] => [[]]
  | c :: cs =>
    let r := splitOnP p cs
    if p c then [] :: r
    else
      match r with
      | [] => [[c]]
      | h :: t => (c :: h) :: t

/-- Drop a single trailing `\r`, as Rust `str::lines` does on each line. -/
def stripCR (l : List Char) : List Char :=
  if l.getLast? = some '\r' then l.dropLast else l

/-- Rust `str::lines`: split at `\n`, the final line ending is optional, and
a `\r` immediately before each `\n` is stripped.  The empty string has no
lines. -/
def rustLines (s : List Char) : List (List Char) :=
  if s.isEmpty then []
  else
    let pieces := splitOnP (· = '\n') s
    let pieces := if s.getLast? = some '\n' then pieces.dropLast else pieces
    pieces.map stripCR

/-- Rust `str::split_whitespace`: maximal runs of non-whitespace
characters. -/
def splitWhitespace (s : List Char) : List (List Char) :=
  (splitOnP Char.isWhitespace s).filter (· ≠ [])

/-- Rust `str::trim`. -/
def rustTrim (s : List Char) : List Char :=
  ((s.dropWhile Char.isWhitespace).reverse.dropWhile Char.isWhitespace).reverse

/-- Numeric value of a list of decimal digits. -/
def digitsToNat (l : List Char) : Nat :=
  l.foldl (fun a c => a * 10 + (c.toNat - '0'.toNat)) 0

/-- Rust `str::parse::<u32>()`: optional leading `+`, at least one ASCII
digit, nothing else, and the value must fit in 32 bits. -/
def parseU32 (l : List Char) : Option Nat :=
  let t := match l with
           | '+' :: rest => rest
           | _ => l
  if t ≠ [] ∧ t.all Char.isDigit ∧ digitsToNat t < 2 ^ 32 then some (digitsToNat t)
  else none

/-- Rust `str::parse::<u64>()`. -/
def parseU64 (l : List Char) : Option Nat :=
  let t := match l with
           | '+' :: rest => rest
           | _ => l
  if t ≠ [] ∧ t.all Char.isDigit ∧ digitsToNat t < 2 ^ 64 then some (digitsToNat t)
  else none

/-- Rust `str::parse::<i64>()`: optional sign, ASCII digits, 64-bit signed
range. -/
def parseI64 (l : List Char) : Option Int :=
  match l with
  | '+' :: t =>
    if t ≠ [] ∧ t.all Char.isDigit ∧ digitsToNat t < 2 ^ 63 then some (digitsToNat t : Int)
    else none
  | '-' :: t =>
    if t ≠ [] ∧ t.all Char.isDigit ∧ digitsToNat t ≤ 2 ^ 63 then some (-(digitsToNat t : Int))
    else none
  | t =>
    if t ≠ [] ∧ t.all Char.isDigit ∧ digitsToNat t < 2 ^ 63 then some (digitsToNat t : Int)
    else none

/-! ## ResponseParser: running-state derivation

`get_container_status` (main.rs lines 234-241) and `get_vm_status`
(lines 323-330) derive the status field identically:
`Running` when the stdout text contains the substring `running`, else
`Stopped` when it contains `stopped`, else `Unknown`. -/

inductive RunState where
  | Running
  | Stopped
  | Unknown
deriving DecidableEq, Repr

/-- Status derivation shared by `get_container_status` and `get_vm_status`:
case-sensitive substring scan, `"running"` checked before `"stopped"`. -/
def parse_running_state (s : String) : RunState :=
  if containsSub "running".data s.data then .Running
  else if containsSub "stopped".data s.data then .Stopped
  else .Unknown

/-! ## ResponseParser: id-listing parse

`get_existing_containers` (lines 759-781) and `get_existing_vms`
(lines 784-806): skip the header line, take the first whitespace-delimited
token of each following line, keep it when it parses as `u32`. -/

/-- The id-listing parser common to `get_existing_containers` and
`get_existing_vms`: `lines().skip(1)`, first token of each line via
`split_whitespace().next()`, `parse::<u32>()`, failures silently dropped. -/
def parse_id_listing (s : String) : List Nat :=
  ((rustLines s.data).drop 1).filterMap fun line =>
    (splitWhitespace line).head? >>= parseU32

/-! ## TargetAddressing

`get_ssh_target` (main.rs lines 1405-1421). -/

/-- `get_ssh_target`: container ids get the container-entry prefix
destination, VM ids 500/611/900 get their static ssh aliases, everything
else falls back to the host destination `"proxmox"`. -/
def get_ssh_target (container_id : Option Nat) (vm_id : Option Nat) : String :=
  match container_id with
  | some cid => "proxmox lxc exec " ++ toString cid ++ " --"
  | none =>
    match vm_id with
    | some vid =>
      if vid = 500 then "homeassistant"
      else if vid = 611 then "alexa"
      else if vid = 900 then "ai-system"
      else "proxmox"
    | none => "proxmox"

/-! ## TTLCache

The global `DATA_CACHE` (main.rs lines 10-17) maps a key to the serialized
payload and its stored-at timestamp.  It is modelled as a function from keys,
with timestamps in whole seconds (the unit that `num_seconds` measures). -/

def Cache : Type := String → Option (String × Int)

def emptyCache : Cache := fun _ => none

/-- The configured freshness durations (seconds), main.rs lines 12-15. -/
def CACHE_DURATION : Int := 300

def CONTAINER_CACHE_DURATION : Int := 60

def HOST_CACHE_DURATION : Int := 180

def MAINTENANCE_CACHE_DURATION : Int := 120

/-- `store_in_cache` (lines 2060-2064): unconditional insert that resets the
timestamp to the current time. -/
def store_in_cache (c : Cache) (key data : String) (now : Int) : Cache :=
  fun k => if k = key then some (data, now) else c k

/-- `get_from_cache` (lines 2050-2057): returns the stored payload regardless
of age. -/
def get_from_cache (c : Cache) (key : String) : Option String :=
  (c key).map Prod.fst

/-- `is_cache_valid_with_duration` (lines 2033-2042): fresh iff the entry
exists and `now - stored_at < duration`. -/
def is_cache_valid_with_duration (c : Cache) (key : String) (duration now : Int) : Bool :=
  match c key with
  | some (_, ts) => decide (now - ts < duration)
  | none => false

/-- The validity check composed with the cache read, exactly as every cached
operation uses the pair (e.g. `get_system_overview`, lines 2071-2077). -/
def cached_read (c : Cache) (key : String) (duration now : Int) : Option String :=
  if is_cache_valid_with_duration c key duration now then get_from_cache c key
  else none

/-! ## Aggregator data model

`ContainerInfo`, `VMInfo` and `SystemOverview` (main.rs lines 18-68).
`f64` fields are carried but never computed with here; `Rat` stands in. -/

structure ContainerInfo where
  id : Nat
  name : String
  status : String
  uptime : String
  cpu_usage : Rat
  memory_usage : Rat
  category : String
  description : String
  web_ui_url : Option String
  os_info : Option String
  running_processes : List String
deriving DecidableEq, Repr

structure VMInfo where
  id : Nat
  name : String
  status : String
  uptime : String
  cpu_usage : Rat
  memory_usage : Rat
  description : String
deriving DecidableEq, Repr

structure SystemOverview where
  containers : List ContainerInfo
  vms : List VMInfo
  total_containers : Nat
  running_containers : Nat
  total_vms : Nat
  running_vms : Nat
  last_updated : Int
deriving DecidableEq, Repr

/-- `get_container_category` (main.rs lines 2233-2243): numeric-range rules
with the catch-all `"Other"`. -/
def get_container_category (container_id : Nat) : String :=
  if 100 ≤ container_id ∧ container_id ≤ 199 then "Core Infrastructure"
  else if 210 ≤ container_id ∧ container_id ≤ 229 then "Essential Media Services"
  else if 230 ≤ container_id ∧ container_id ≤ 239 then "Media Servers"
  else if 240 ≤ container_id ∧ container_id ≤ 250 then "Enhancement Services"
  else if 260 ≤ container_id ∧ container_id ≤ 269 then "Monitoring & Analytics"
  else if 270 ≤ container_id ∧ container_id ≤ 279 then "Management & Utilities"
  else "Other"

/-- The static container catalog of `get_system_overview`
(main.rs lines 2086-2149): `(id, name, description, category)`. -/
def container_metadata : List (Nat × String × String × String) :=
  [(100, "WireGuard", "VPN access and secure tunneling", "Core Infrastructure"),
   (101, "Gluetun", "VPN client container for other services", "Core Infrastructure"),
   (102, "Flaresolverr", "Cloudflare solver proxy", "Core Infrastructure"),
   (103, "Traefik", "Reverse proxy and load balancer", "Core Infrastructure"),
   (104, "Vaultwarden", "Password manager server", "Core Infrastructure"),
   (105, "Valkey", "Redis-compatible in-memory database", "Core Infrastructure"),
   (106, "PostgreSQL", "Primary database server", "Core Infrastructure"),
   (107, "Authentik", "Identity provider and SSO", "Core Infrastructure"),
   (210, "Prowlarr", "Indexer manager and proxy", "Essential Media Services"),
   (211, "Jackett", "Torrent indexer proxy", "Essential Media Services"),
   (212, "QBittorrent", "BitTorrent client", "Essential Media Services"),
   (214, "Sonarr", "TV series management", "Essential Media Services"),
   (215, "Radarr", "Movie management", "Essential Media Services"),
   (216, "Proxarr", "Proxy management for *arr apps", "Essential Media Services"),
   (217, "Readarr", "Book and audiobook management", "Essential Media Services"),
   (219, "Whisparr", "Adult content management", "Essential Media Services"),
   (220, "Sonarr Extended", "Extended TV series management", "Essential Media Services"),
   (221, "Radarr Extended", "Extended movie management", "Essential Media Services"),
   (223, "Autobrr", "Automated torrent management", "Essential Media Services"),
   (224, "Deluge", "Alternative BitTorrent client", "Essential Media Services"),
   (230, "Plex", "Media server and streaming platform", "Media Servers"),
   (231, "Jellyfin", "Open-source media server", "Media Servers"),
   (232, "Audiobookshelf", "Audiobook and podcast server", "Media Servers"),
   (233, "Calibre-web", "E-book server and manager", "Media Servers"),
   (234, "IPTV-Proxy", "IPTV streaming proxy", "Media Servers"),
   (235, "TVHeadend", "TV streaming server", "Media Servers"),
   (236, "Tdarr Server", "Media transcoding server", "Media Servers"),
   (237, "Tdarr Node", "Media transcoding worker", "Media Servers"),
   (240, "Bazarr", "Subtitle management", "Enhancement Services"),
   (241, "Overseerr", "Media request management", "Enhancement Services"),
   (242, "Jellyseerr", "Jellyfin request management", "Enhancement Services"),
   (243, "Ombi", "Media request platform", "Enhancement Services"),
   (244, "Tautulli", "Plex monitoring and statistics", "Enhancement Services"),
   (245, "Kometa", "Plex metadata management", "Enhancement Services"),
   (246, "Gaps", "Plex collection gap finder", "Enhancement Services"),
   (247, "Janitorr", "Media cleanup automation", "Enhancement Services"),
   (248, "Decluttarr", "Media library decluttering", "Enhancement Services"),
   (249, "Watchlistarr", "Watchlist synchronization", "Enhancement Services"),
   (250, "Traktarr", "Trakt.tv integration", "Enhancement Services"),
   (260, "Prometheus", "Metrics collection and monitoring", "Monitoring & Analytics"),
   (261, "Grafana", "Metrics visualization and dashboards", "Monitoring & Analytics"),
   (262, "Checkrr", "Service health checking", "Monitoring & Analytics"),
   (270, "FileBot", "File renaming and organization", "Management & Utilities"),
   (271, "FlexGet", "Automated content downloading", "Management & Utilities"),
   (272, "Buildarr", "Configuration management for *arr apps", "Management & Utilities"),
   (274, "Organizr", "Service organization dashboard", "Management & Utilities"),
   (275, "Homarr", "Modern dashboard for services", "Management & Utilities"),
   (276, "Homepage", "Customizable homepage dashboard", "Management & Utilities"),
   (277, "Recyclarr", "Configuration recycling for *arr apps", "Management & Utilities"),
   (278, "CrowdSec", "Collaborative security engine", "Management & Utilities"),
   (279, "Tailscale", "Secure networking mesh", "Management & Utilities")]

/-- The static VM catalog of `get_system_overview` (main.rs lines 2152-2157):
`(id, name, description)`. -/
def vm_metadata : List (Nat × String × String) :=
  [(500, "Home Assistant", "Home automation platform"),
   (611, "Ziggy", "Media bridging and streaming VM"),
   (612, "Bliss OS Android", "Android emulation and testing environment"),
   (900, "AI System", "Artificial intelligence services")]

/-- Metadata overlay on a fetched container record (main.rs lines 2162-2172):
a catalog hit overrides name/category/description, a miss installs the
generic name, range-derived category and generic description. -/
def overlay_container (catalog : List (Nat × String × String × String))
    (container_id : Nat) (ci : ContainerInfo) : ContainerInfo :=
  match catalog.find? (fun e => e.1 == container_id) with
  | some e => { ci with name := e.2.1, category := e.2.2.2, description := e.2.2.1 }
  | none =>
    { ci with name := "Container " ++ toString container_id,
              category := get_container_category container_id,
              description := "Unknown container" }

/-- Metadata overlay on a fetched VM record (main.rs lines 2180-2188). -/
def overlay_vm (catalog : List (Nat × String × String)) (vm_id : Nat)
    (vi : VMInfo) : VMInfo :=
  match catalog.find? (fun e => e.1 == vm_id) with
  | some e => { vi with name := e.2.1, description := e.2.2 }
  | none =>
    { vi with name := "VM " ++ toString vm_id,
              description := "Unknown virtual machine" }

/-- The container loop of `get_system_overview` (main.rs lines 2160-2175):
per-id status fetch, failures silently skipped, successes overlaid and kept
in discovery order. -/
def build_containers (fetch : Nat → Except String ContainerInfo) :
    List Nat → List ContainerInfo
  | [] => []
  | id :: rest =>
    match fetch id with
    | .ok ci => overlay_container container_metadata id ci :: build_containers fetch rest
    | .error _ => build_containers fetch rest

/-- The VM loop of `get_system_overview` (main.rs lines 2177-2191). -/
def build_vms (fetch : Nat → Except String VMInfo) : List Nat → List VMInfo
  | [] => []
  | id :: rest =>
    match fetch id with
    | .ok vi => overlay_vm vm_metadata id vi :: build_vms fetch rest
    | .error _ => build_vms fetch rest

/-- The aggregate pass of `get_system_overview` after a cache miss
(main.rs lines 2078-2211), with the per-target fetches and the clock as
parameters and the discovered id lists given (discovery errors are folded to
`[]` by `unwrap_or_default` upstream of this point). -/
def get_system_overview_model (fetchC : Nat → Except String ContainerInfo)
    (fetchV : Nat → Except String VMInfo) (container_ids vm_ids : List Nat)
    (now : Int) : Except String SystemOverview :=
  let containers := build_containers fetchC container_ids
  let vms := build_vms fetchV vm_ids
  .ok { containers := containers
        vms := vms
        total_containers := containers.length
        running_containers := (containers.filter (fun c => c.status == "Running")).length
        total_vms := vms.length
        running_vms := (vms.filter (fun v => v.status == "Running")).length
        last_updated := now }

/-- A minimal container record, as `get_container_status` would produce it
before the metadata overlay. -/
def sampleContainer (id : Nat) : ContainerInfo :=
  { id := id
    name := "Container " ++ toString id
    status := "Running"
    uptime := "Running"
    cpu_usage := 0
    memory_usage := 0
    category := "Unknown"
    description := "Unknown"
    web_ui_url := none
    os_info := none
    running_processes := [] }

/-- A status-fetch function for which exactly container 214 is unreachable. -/
def fetchCSample : Nat → Except String ContainerInfo := fun id =>
  if id = 214 then .error "Failed to execute SSH command: connection refused"
  else .ok (sampleContainer id)

def fetchVSample : Nat → Except String VMInfo := fun _ =>
  .error "Failed to execute SSH command: connection refused"

/-! ## write_config and write_container_config

`write_config` (main.rs lines 1214-1248) issues a backup `cp` and then a
`tee` overwrite fed on stdin; `write_container_config` (lines 2000-2018)
issues a backup `cp` whose destination embeds the current epoch from
`timestamp()`. -/

/-- The backup destination built by `write_config`: the fixed path
`<config>.backup`; nothing in it depends on the clock. -/
def write_config_backup_path (config_path : String) : String :=
  config_path ++ ".backup"

/-- The ordered remote command sequence of `write_config`: backup copy
first, then the overwrite (whose content travels on stdin). -/
def write_config_commands (target config_path : String) : List (List String) :=
  [[target, "cp", config_path, write_config_backup_path config_path],
   [target, "tee", config_path]]

/-- The backup command string built by `write_container_config`:
`pct exec <id> -- cp <path> <path>.backup-<epoch>`, with both paths
single-quoted in the command text. -/
def write_container_config_backup_arg (container_id : Nat) (config_path : String)
    (now : Int) : String :=
  "pct exec " ++ toString container_id ++ " -- cp \x27" ++ config_path
    ++ "\x27 \x27" ++ config_path ++ ".backup-" ++ toString now ++ "\x27"

/-! ## check_binary version detection

`check_binary` (main.rs lines 1052-1090). -/

/-- The fallback flag list, in source order. -/
def alt_commands : List String := ["-v", "-V", "version", "--help"]

/-- Rust `lines().next()`: the first line, `none` on the empty string. -/
def firstLine? (s : String) : Option String :=
  (rustLines s.data).head?.map String.mk

/-- Whether one fallback attempt is accepted: the flag must run and exit
successfully and its first output line must be non-empty and shorter than
200 bytes; the accepted value is that first line. -/
def accepted_line (run : String → Option (Bool × String)) (flag : String) :
    Option String :=
  match run flag with
  | some (true, out) =>
    match firstLine? out with
    | some l => if l ≠ "" ∧ l.utf8ByteSize < 200 then some l else none
    | none => none
  | _ => none

/-- The fallback loop over `alt_commands`: first accepted line wins,
otherwise the sentinel. -/
def cascade_alt (run : String → Option (Bool × String)) : List String → String
  | [] => "Unknown"
  | flag :: rest =>
    match accepted_line run flag with
    | some l => l
    | none => cascade_alt run rest

/-- The version-detection logic of `check_binary` for an existing binary.
`run flag` is the remote invocation `ssh <target> <path> <flag>`: `none`
models a launch failure of the ssh process, `some (ok, stdout)` a completed
run.  On a successful `--version` the first stdout line (or `"Unknown"` when
stdout is empty) is taken unconditionally; on an unsuccessful-but-launched
`--version` the fallback flags are cascaded; on a launch failure the
sentinel is returned with no cascade. -/
def detect_version (run : String → Option (Bool × String)) : String :=
  match run "--version" with
  | some r =>
    if r.1 then
      match firstLine? r.2 with
      | some l => l
      | none => "Unknown"
    else cascade_alt run alt_commands
  | none => "Unknown"

/-- The version detection as the specification words it, for comparison:
tries `--version` first and, if that yields no success, cascades through the
ordered fallback flag list — so any unsuccessful `--version` attempt,
including one that could not be launched, falls through to the fallbacks.
It differs from `detect_version` only on that launch-failure case. -/
def detect_version_spec (run : String → Option (Bool × String)) : String :=
  match run "--version" with
  | some (true, out) =>
    match firstLine? out with
    | some l => l
    | none => "Unknown"
  | _ => cascade_alt run alt_commands

/-- A run function whose `--version` invocation cannot be launched while
`-v` succeeds with a good single-line output. -/
def runLaunchFail : String → Option (Bool × String) := fun flag =>
  if flag = "-v" then some (true, "1.2.3") else none

/-- A run function whose `--version` runs but fails, `-v` runs but fails,
and `-V` succeeds with a two-line output. -/
def runCascadeSample : String → Option (Bool × String) := fun flag =>
  if flag = "--version" then some (false, "unrecognized option")
  else if flag = "-V" then some (true, "v2.0.1\nbuild details")
  else some (false, "")

/-! ## check_config stat parsing

`check_config` (main.rs lines 1155-1180). -/

/-- The stat parsing step of `check_config`: trim, split on whitespace; the
size is token 0 parsed as `u64` with `unwrap_or(0)`; the modified epoch is
token 1 parsed as `i64`, kept optional (no numeric default). -/
def parse_stat_pair (s : String) : Nat × Option Int :=
  let parts := splitWhitespace (rustTrim s.data)
  (((parts[0]?).bind parseU64).getD 0, (parts[1]?).bind parseI64)

/-- The rendering of the modified field (main.rs lines 1168-1175): a parsed
epoch goes through the external date formatter `fmt` (which models
`DateTime::from_timestamp` plus `format` and may itself reject an
out-of-range epoch); a missing, unparsable or unformattable epoch yields
`"Unknown"`. -/
def check_config_modified (fmt : Int → Option String) (s : String) : String :=
  match (parse_stat_pair s).2 with
  | some t => (fmt t).getD "Unknown"
  | none => "Unknown"

/-- The stat-pair parse as the specification words it, for comparison: both
fields default to 0 when missing or unparsable. -/
def parse_stat_pair_spec (s : String) : Nat × Int :=
  let parts := splitWhitespace (rustTrim s.data)
  (((parts[0]?).bind parseU64).getD 0, ((parts[1]?).bind parseI64).getD 0)

/-! ## Lemmas about the string primitives -/

theorem isPrefixList_iff (n : List Char) : ∀ h : List Char,
    isPrefixList n h = true ↔ ∃ t, h = n ++ t := by
  induction n with
  | nil =>
    intro h
    simp [isPrefixList]
  | cons a as ih =>
    intro h
    cases h with
    | nil =>
      simp [isPrefixList]
    | cons b bs =>
      simp only [isPrefixList, Bool.and_eq_true, beq_iff_eq, ih bs]
      constructor
      · rintro ⟨rfl, t, rfl⟩
        exact ⟨t, rfl⟩
      · rintro ⟨t, ht⟩
        cases ht
        exact ⟨rfl, t, rfl⟩

theorem containsSub_iff (n : List Char) : ∀ h : List Char,
    containsSub n h = true ↔ ∃ pre post, h = pre ++ n ++ post := by
  intro h
  induction h with
  | nil =>
    simp only [containsSub, List.isEmpty_iff]
    constructor
    · rintro rfl
      exact ⟨[], [], rfl⟩
    · rintro ⟨pre, post, hp⟩
      rcases List.append_eq_nil.mp (List.append_eq_nil.mp hp.symm).1 with ⟨-, h2⟩
      exact h2
  | cons c cs ih =>
    simp only [containsSub, Bool.or_eq_true, isPrefixList_iff, ih]
    constructor
    · rintro (⟨t, ht⟩ | ⟨pre, post, rfl⟩)
      · exact ⟨[], t, by simpa using ht⟩
      · exact ⟨c :: pre, post, rfl⟩
    · rintro ⟨pre, post, hp⟩
      cases pre with
      | nil =>
        left
        exact ⟨post, by simpa using hp⟩
      | cons p ps =>
        right
        refine ⟨ps, post, ?_⟩
        simp only [List.cons_append, List.cons.injEq] at hp
        exact hp.2

theorem cascade_alt_skip (run : String → Option (Bool × String))
    (pre rest : List String) (h : ∀ g ∈ pre, accepted_line run g = none) :
    cascade_alt run (pre ++ rest) = cascade_alt run rest := by
  induction pre with
  | nil => rfl
  | cons g gs ih =>
    have hg : accepted_line run g = none := h g (List.mem_cons_self g gs)
    rw [List.cons_append]
    simp only [cascade_alt, hg]
    exact ih fun x hx => h x (List.mem_cons_of_mem g hx)

/-! ## Claim theorems -/

/-- Claim C1: storing a value `v` for key `key` at time `t0` and reading it
back through the validity-check-plus-read composition at time `t0 + d`
returns `some v` iff `d < D`, and returns `none` whenever `d ≥ D`. -/
theorem C1_cache_freshness (c : Cache) (key v : String) (t0 d D : Int) :
    (cached_read (store_in_cache c key v t0) key D (t0 + d) = some v ↔ d < D)
  ∧ (D ≤ d → cached_read (store_in_cache c key v t0) key D (t0 + d) = none) := by
  have harith : t0 + d - t0 = d := by ring
  constructor
  · by_cases h : d < D <;>
      simp [cached_read, is_cache_valid_with_duration, store_in_cache,
            get_from_cache, harith, h]
  · intro hD
    have h : ¬ d < D := not_lt.mpr hD
    simp [cached_read, is_cache_valid_with_duration, store_in_cache,
          get_from_cache, harith, h]

/-- Concrete instance of `C1_cache_freshness` with the system-overview key
and its 300-second duration: a read 299 seconds after the store hits, a read
300 seconds after misses. -/
theorem C1_cache_freshness_witness :
    cached_read (store_in_cache emptyCache "system_overview" "ov" 0)
        "system_overview" CACHE_DURATION ((0 : Int) + 299) = some "ov"
  ∧ cached_read (store_in_cache emptyCache "system_overview" "ov" 0)
        "system_overview" CACHE_DURATION ((0 : Int) + 300) = none :=
  ⟨(C1_cache_freshness emptyCache "system_overview" "ov" 0 299 CACHE_DURATION).1.mpr
      (by decide),
   (C1_cache_freshness emptyCache "system_overview" "ov" 0 300 CACHE_DURATION).2
      (by decide)⟩

/-- Claim C2: with three discovered targets whose middle status fetch fails,
the aggregate pass still returns `Ok`, the overview holds exactly the two
records for the first and third targets (in discovery order, overlaid with
catalog metadata), and the total count is 2. -/
theorem C2_partial_failure (fetchC : Nat → Except String ContainerInfo)
    (fetchV : Nat → Except String VMInfo) (a b c : Nat)
    (r1 r3 : ContainerInfo) (e : String) (vm_ids : List Nat) (now : Int)
    (ha : fetchC a = .ok r1) (hb : fetchC b = .error e) (hc : fetchC c = .ok r3) :
    ∃ ov : SystemOverview,
      get_system_overview_model fetchC fetchV [a, b, c] vm_ids now = .ok ov
      ∧ ov.containers = [overlay_container container_metadata a r1,
                         overlay_container container_metadata c r3]
      ∧ ov.total_containers = 2 := by
  refine ⟨_, rfl, ?_, ?_⟩ <;>
    simp [get_system_overview_model, build_containers, ha, hb, hc]

/-- Concrete instance of `C2_partial_failure`: targets 100, 214, 230 with
214 failing. -/
theorem C2_partial_failure_witness :
    ∃ ov : SystemOverview,
      get_system_overview_model fetchCSample fetchVSample [100, 214, 230] [] 0 = .ok ov
      ∧ ov.containers = [overlay_container container_metadata 100 (sampleContainer 100),
                         overlay_container container_metadata 230 (sampleContainer 230)]
      ∧ ov.total_containers = 2 :=
  C2_partial_failure fetchCSample fetchVSample 100 214 230
    (sampleContainer 100) (sampleContainer 230)
    "Failed to execute SSH command: connection refused" [] 0 rfl rfl rfl

/-- Claim C3: for every status text, running-state derivation returns
`Running` iff the text contains the substring `"running"`, else `Stopped`
iff it contains `"stopped"`, else `Unknown`; a text containing both yields
`Running`, and the match is case-sensitive substring containment (an
upper-case `"RUNNING"` is not recognised). -/
theorem C3_status_derivation (s : String) :
    (parse_running_state s = .Running ↔
      ∃ pre post, s.data = pre ++ "running".data ++ post)
  ∧ (parse_running_state s = .Stopped ↔
      ((¬ ∃ pre post, s.data = pre ++ "running".data ++ post)
        ∧ ∃ pre post, s.data = pre ++ "stopped".data ++ post))
  ∧ (parse_running_state s = .Unknown ↔
      ((¬ ∃ pre post, s.data = pre ++ "running".data ++ post)
        ∧ ¬ ∃ pre post, s.data = pre ++ "stopped".data ++ post))
  ∧ parse_running_state "status: running (was stopped)" = .Running
  ∧ parse_running_state "VM 100 RUNNING" = .Unknown := by
  refine ⟨?_, ?_, ?_, by decide, by decide⟩ <;>
  · simp only [← containsSub_iff]
    unfold parse_running_state
    cases h1 : containsSub "running".data s.data <;>
      cases h2 : containsSub "stopped".data s.data <;>
        simp [h1, h2]

/-- Claim C4 as stated is false: in the overlay step a discovered id 214
with no catalog entry does not fall into category `"Other"` — the numeric
range 210-229 matches, so it gets `"Essential Media Services"`. -/
theorem C4_metadata_overlay_counterexample :
    (overlay_container [] 214 (sampleContainer 214)).category
        = "Essential Media Services"
  ∧ (overlay_container [] 214 (sampleContainer 214)).category ≠ "Other" := by
  constructor <;> decide

/-- Claim C4 (amended): an id with no catalog entry gets the generic name
and description and a category from the numeric-range rules — for id 214
that range is 210-229, giving `"Essential Media Services"`; only an id
matching no documented range (e.g. 999) falls into `"Other"` — while an id
with a matching catalog entry gets the exact catalog name, description and
category, overriding the generic defaults. -/
theorem C4_metadata_overlay :
    ((overlay_container [] 214 (sampleContainer 214)).category
        = "Essential Media Services"
      ∧ (overlay_container [] 214 (sampleContainer 214)).description
          = "Unknown container"
      ∧ (overlay_container [] 214 (sampleContainer 214)).name = "Container 214")
  ∧ (overlay_container [] 999 (sampleContainer 999)).category = "Other"
  ∧ ∀ (catalog : List (Nat × String × String × String)) (id : Nat)
      (ci : ContainerInfo) (i : Nat) (n d cat : String),
      catalog.find? (fun e => e.1 == id) = some (i, n, d, cat) →
      overlay_container catalog id ci
        = { ci with name := n, description := d, category := cat } := by
  refine ⟨⟨by decide, by decide, by decide⟩, by decide, ?_⟩
  intro catalog id ci i n d cat h
  simp [overlay_container, h]

/-- Concrete instance of `C4_metadata_overlay`: id 215 has the catalog entry
(215, Radarr, Movie management, Essential Media Services) and receives
exactly those fields. -/
theorem C4_metadata_overlay_witness :
    overlay_container container_metadata 215 (sampleContainer 215)
      = { sampleContainer 215 with
          name := "Radarr"
          description := "Movie management"
          category := "Essential Media Services" } :=
  C4_metadata_overlay.2.2 container_metadata 215 (sampleContainer 215)
    215 "Radarr" "Movie management" "Essential Media Services" (by decide)

/-- Claim C5 as stated is false: the backup destination of `write_config`
is the fixed path `<config>.backup` — for `/etc/app.conf` it contains no
digit at all, so at time 1700000000 it cannot embed the timestamp, unlike
the backup command of `write_container_config`, which does embed it. -/
theorem C5_write_config_backup_counterexample :
    write_config_backup_path "/etc/app.conf" = "/etc/app.conf.backup"
  ∧ (write_config_backup_path "/etc/app.conf").data.all (fun c => !c.isDigit) = true
  ∧ containsSub "1700000000".data (write_config_backup_path "/etc/app.conf").data
      = false
  ∧ containsSub "1700000000".data
      (write_container_config_backup_arg 101 "/etc/app.conf" 1700000000).data
      = true := by
  refine ⟨by decide, by decide, by decide, by decide⟩

/-- Claim C5 (amended): for every config path, `write_config` issues the
backup copy before the overwrite, but its backup destination is the fixed,
untimestamped path `<config>.backup`; it is `write_container_config` whose
backup command embeds the current epoch in the backup name (so distinct
times give distinct backup names). -/
theorem C5_write_config_backup (target config_path : String) :
    (write_config_commands target config_path).head?
        = some [target, "cp", config_path, config_path ++ ".backup"]
  ∧ (write_config_commands target config_path)[1]?
        = some [target, "tee", config_path]
  ∧ (∀ (cid : Nat) (now : Int), ∃ pre post : String,
        write_container_config_backup_arg cid config_path now
          = pre ++ (".backup-" ++ toString now) ++ post)
  ∧ write_container_config_backup_arg 101 "/etc/app.conf" 1700000000
      ≠ write_container_config_backup_arg 101 "/etc/app.conf" 1700000001 := by
  refine ⟨rfl, rfl, ?_, by decide⟩
  intro cid now
  refine ⟨"pct exec " ++ toString cid ++ " -- cp \x27" ++ config_path
            ++ "\x27 \x27" ++ config_path, "\x27", ?_⟩
  simp [write_container_config_backup_arg, String.append_assoc]

/-- Claim C6 as stated is false: when the `--version` invocation itself
cannot be launched, `check_binary` returns `"Unknown"` immediately and never
tries the fallback flags, even though `-v` would succeed with a good
single-line output; the spec-worded cascade would return that output. -/
theorem C6_version_cascade_counterexample :
    detect_version runLaunchFail = "Unknown"
  ∧ detect_version_spec runLaunchFail = "1.2.3"
  ∧ ("Unknown" : String) ≠ "1.2.3" := by
  refine ⟨by decide, by decide, by decide⟩

/-- Claim C6 (amended): version detection tries `--version` first.  If
`--version` runs and succeeds, its first output line (or `"Unknown"` when
the output is empty) is returned.  If `--version` runs but exits
unsuccessfully, the ordered fallback flags `-v`, `-V`, `version`, `--help`
are cascaded and the first output whose first line is non-empty and shorter
than 200 bytes is accepted; if all fallbacks fail, `"Unknown"` is returned.
If the `--version` invocation itself cannot be launched, `"Unknown"` is
returned immediately without cascading. -/
theorem C6_version_cascade (run : String → Option (Bool × String)) :
    (run "--version" = none → detect_version run = "Unknown")
  ∧ (∀ out : String, run "--version" = some (true, out) →
      detect_version run = (firstLine? out).getD "Unknown")
  ∧ (∀ (err : String) (pre post : List String) (f l : String),
      run "--version" = some (false, err) →
      alt_commands = pre ++ f :: post →
      (∀ g ∈ pre, accepted_line run g = none) →
      accepted_line run f = some l →
      detect_version run = l)
  ∧ (∀ err : String, run "--version" = some (false, err) →
      (∀ g ∈ alt_commands, accepted_line run g = none) →
      detect_version run = "Unknown") := by
  refine ⟨?_, ?_, ?_, ?_⟩
  · intro h
    simp [detect_version, h]
  · intro out h
    cases hf : firstLine? out <;> simp [detect_version, h, hf]
  · intro err pre post f l h hsplit hpre hacc
    rw [detect_version, h]
    simp only [Bool.false_eq_true, if_false, hsplit]
    rw [cascade_alt_skip run pre (f :: post) hpre]
    simp [cascade_alt, hacc]
  · intro err h hall
    rw [detect_version, h]
    simp only [Bool.false_eq_true, if_false]
    have hnil : cascade_alt run (alt_commands ++ []) = cascade_alt run [] :=
      cascade_alt_skip run alt_commands [] hall
    rw [List.append_nil] at hnil
    rw [hnil]
    rfl

/-- Concrete instance of `C6_version_cascade`: `--version` runs but fails,
`-v` runs but fails, `-V` succeeds with first line `"v2.0.1"`, which is
returned. -/
theorem C6_version_cascade_witness :
    detect_version runCascadeSample = "v2.0.1" :=
  (C6_version_cascade runCascadeSample).2.2.1 "unrecognized option"
    ["-v"] ["version", "--help"] "-V" "v2.0.1"
    (by decide) (by decide) (by decide) (by decide)

/-- Claim C7: on the input `"ID\n100 running\n214 stopped\nabc bad\n230
running\n"` the id-listing parser yields exactly `[100, 214, 230]`: the
header line is skipped, the non-numeric row is dropped, and order is
preserved. -/
theorem C7_listing_parse :
    parse_id_listing "ID\n100 running\n214 stopped\nabc bad\n230 running\n"
      = [100, 214, 230] := by decide

/-- Claim C8: target addressing is total and deterministic (it is a plain
function into `String`); a container id yields the container-entry prefix
destination, VM ids in the static alias table yield their aliases, and any
VM id outside the table falls back to the host destination `"proxmox"`. -/
theorem C8_target_addressing :
    (∀ (cid : Nat) (v : Option Nat),
        get_ssh_target (some cid) v = "proxmox lxc exec " ++ toString cid ++ " --")
  ∧ get_ssh_target none (some 500) = "homeassistant"
  ∧ get_ssh_target none (some 611) = "alexa"
  ∧ get_ssh_target none (some 900) = "ai-system"
  ∧ (∀ vid : Nat, vid ≠ 500 → vid ≠ 611 → vid ≠ 900 →
        get_ssh_target none (some vid) = "proxmox") := by
  refine ⟨fun cid v => rfl, rfl, rfl, rfl, fun vid h1 h2 h3 => ?_⟩
  simp [get_ssh_target, h1, h2, h3]

/-- Concrete instance of `C8_target_addressing`: VM 612 (present in the
metadata catalog but not in the ssh alias table) resolves to the host. -/
theorem C8_target_addressing_witness :
    get_ssh_target none (some 612) = "proxmox" :=
  C8_target_addressing.2.2.2.2 612 (by decide) (by decide) (by decide)

/-- Claim C9 as stated is false: on `"512 notanumber"` the size parses to
512, but the unparsable modified field is not defaulted to 0 — the code
leaves it absent and renders the sentinel `"Unknown"`, where the spec-worded
parse would give 0. -/
theorem C9_stat_pair_counterexample :
    parse_stat_pair "512 notanumber" = (512, none)
  ∧ parse_stat_pair_spec "512 notanumber" = (512, 0)
  ∧ check_config_modified (fun t => some (toString t)) "512 notanumber"
      = "Unknown" := by
  refine ⟨by decide, by decide, by decide⟩

/-- Claim C9 (amended): the stat parser expects two whitespace-separated
integers; a missing or unparsable size defaults to 0, while a missing or
unparsable modified epoch is not defaulted to 0 — it stays absent and the
modified field of the record becomes the sentinel `"Unknown"`; when both
tokens parse, the exact pair is returned. -/
theorem C9_stat_pair (s : String) (fmt : Int → Option String) :
    (((splitWhitespace (rustTrim s.data))[0]?).bind parseU64 = none →
        (parse_stat_pair s).1 = 0)
  ∧ (((splitWhitespace (rustTrim s.data))[1]?).bind parseI64 = none →
        (parse_stat_pair s).2 = none ∧ check_config_modified fmt s = "Unknown")
  ∧ (∀ (a : Nat) (b : Int),
        ((splitWhitespace (rustTrim s.data))[0]?).bind parseU64 = some a →
        ((splitWhitespace (rustTrim s.data))[1]?).bind parseI64 = some b →
        parse_stat_pair s = (a, some b)) := by
  refine ⟨?_, ?_, ?_⟩
  · intro h
    simp [parse_stat_pair, h]
  · intro h
    exact ⟨by simp [parse_stat_pair, h], by simp [check_config_modified, parse_stat_pair, h]⟩
  · intro a b h0 h1
    simp [parse_stat_pair, h0, h1]

/-- Concrete instance of `C9_stat_pair`: both tokens of
`"4096 1700000000"` parse and are returned exactly. -/
theorem C9_stat_pair_witness :
    parse_stat_pair "4096 1700000000" = (4096, some 1700000000) :=
  (C9_stat_pair "4096 1700000000" fun t => some (toString t)).2.2
    4096 1700000000 (by decide) (by decide)

end ProxmoxAdmin
